import Mathlib

/-!
A shallow embedding of the StellarNode reconciliation core of the
Stellar-K8s operator, together with theorems checking its specification.

The embedding follows the Rust sources:
  * `src/crd/types.rs` — shared spec types (`NodeType`, `StellarNetwork`,
    `StorageConfig`, `RetentionPolicy`, ...);
  * `src/controller/resources.rs` — pure desired-state builders
    (`build_pvc`, `build_config_map`, `build_deployment`,
    `build_statefulset`, `build_service`, `build_hpa`) and the
    ensure/delete operations per child kind;
  * `src/controller/reconciler.rs` — `apply_stellar_node`,
    `cleanup_stellar_node`, `get_ready_replicas`, `update_status`,
    `error_policy`.

Cluster interactions are modelled by an explicit environment (`Env`)
answering each cluster-API call, and every operation returns the list of
API calls it issued (`Step`) next to its `Except` result, so that claims
about which calls are made (and in which order) are directly statable.

Rust `BTreeMap`s are modelled as association lists in ascending key
order (the order a `BTreeMap` iterates in); `i32` counters are modelled
as `Int`; `Option<T>` becomes `Option`; fallible calls return `Except`.
-/

namespace StellarK8s

/-- `NodeType` from `src/crd/types.rs`: the supported Stellar node kinds. -/
inductive NodeType where
  | Validator
  | Horizon
  | SorobanRpc
deriving DecidableEq, Repr

/-- `NodeType::to_string` (the `Display` impl in `src/crd/types.rs`). -/
def NodeType.toString : NodeType → String
  | .Validator => "Validator"
  | .Horizon => "Horizon"
  | .SorobanRpc => "SorobanRpc"

/-- `StellarNetwork` from `src/crd/types.rs`. -/
inductive StellarNetwork where
  | Mainnet
  | Testnet
  | Futurenet
  | Custom (passphrase : String)
deriving DecidableEq, Repr

/-- `StellarNetwork::passphrase` from `src/crd/types.rs`. -/
def StellarNetwork.passphrase : StellarNetwork → String
  | .Mainnet => "Public Global Stellar Network ; September 2015"
  | .Testnet => "Test SDF Network ; September 2015"
  | .Futurenet => "Test SDF Future Network ; October 2022"
  | .Custom p => p

/-- `ResourceSpec` from `src/crd/types.rs`. -/
structure ResourceSpec where
  cpu : String
  memory : String
deriving DecidableEq, Repr

/-- `ResourceRequirements` from `src/crd/types.rs`. -/
structure ResourceRequirements where
  requests : ResourceSpec
  limits : ResourceSpec
deriving DecidableEq, Repr

/-- `RetentionPolicy` from `src/crd/types.rs`. -/
inductive RetentionPolicy where
  | Delete
  | Retain
deriving DecidableEq, Repr

/-- `StorageConfig` from `src/crd/types.rs`.  The `annotations` map is an
association list in ascending key order, as a `BTreeMap` iterates. -/
structure StorageConfig where
  storage_class : String
  size : String
  retention_policy : RetentionPolicy
  annotations : Option (List (String × String))
deriving DecidableEq, Repr

/-- `ValidatorConfig` from `src/crd/types.rs`. -/
structure ValidatorConfig where
  seed_secret_ref : String
  quorum_set : Option String
  enable_history_archive : Bool
  history_archive_urls : List String
  catchup_complete : Bool
deriving DecidableEq, Repr

/-- `HorizonConfig` from `src/crd/types.rs`. -/
structure HorizonConfig where
  database_secret_ref : String
  enable_ingest : Bool
  stellar_core_url : String
  ingest_workers : Nat
  enable_experimental_ingestion : Bool
deriving DecidableEq, Repr

/-- `SorobanConfig` from `src/crd/types.rs`. -/
structure SorobanConfig where
  stellar_core_url : String
  captive_core_config : Option String
  enable_preflight : Bool
  max_events_per_request : Nat
deriving DecidableEq, Repr

/-- The `secret_key_ref` of the external-database block, as read by
`build_container` in `src/controller/resources.rs` (`db_config.secret_key_ref.name`,
`db_config.secret_key_ref.key`). -/
structure SecretKeyRef where
  name : String
  key : String
deriving DecidableEq, Repr

/-- The external-database block of the spec (`node.spec.database`), as read by
`build_container` in `src/controller/resources.rs`. -/
structure DatabaseConfig where
  secret_key_ref : SecretKeyRef
deriving DecidableEq, Repr

/-- The autoscaling block of the spec (`node.spec.autoscaling`), as read by
`build_hpa` in `src/controller/resources.rs` (`min_replicas`, `max_replicas`,
`custom_metrics`). -/
structure AutoscalingConfig where
  min_replicas : Int
  max_replicas : Int
  custom_metrics : List String
deriving DecidableEq, Repr

/-- `StellarNodeSpec`: the spec of the custom resource.  Its declaration
lives in `src/crd/stellar_node.rs`, which is absent from `src/`; the field
set is reconstructed from its uses in `src/controller/reconciler.rs` and
`src/controller/resources.rs` (`node.spec.node_type`, `.network`,
`.replicas`, `.suspended`, `.storage`, `.resources`, `.validator_config`,
`.horizon_config`, `.soroban_config`, `.database`, `.autoscaling`) and the
spec schema (which also lists `version`). -/
structure StellarNodeSpec where
  node_type : NodeType
  network : StellarNetwork
  version : String
  replicas : Int
  suspended : Bool
  storage : StorageConfig
  resources : ResourceRequirements
  validator_config : Option ValidatorConfig
  horizon_config : Option HorizonConfig
  soroban_config : Option SorobanConfig
  database : Option DatabaseConfig
  autoscaling : Option AutoscalingConfig
deriving DecidableEq, Repr

/-- Modelled from the spec: `StellarNodeSpec::validate` is declared in
`src/crd/stellar_node.rs`, which is absent from `src/`.  The spec says a
semantically invalid spec (its example: a negative replica count) fails
validation with a non-empty message.  Returns the validation message on
failure, as the Rust `Result<(), String>` does. -/
def StellarNodeSpec.validate (s : StellarNodeSpec) : Except String Unit :=
  if s.replicas < 0 then
    .error "replicas must be non-negative"
  else
    .ok ()

/-- Modelled from the spec: `StellarNodeSpec::should_delete_pvc` is declared
in `src/crd/stellar_node.rs`, which is absent from `src/`.  The spec says
"the storage claim is deleted on node deletion only if retention policy is
Delete — otherwise it survives deliberately". -/
def StellarNodeSpec.should_delete_pvc (s : StellarNodeSpec) : Bool :=
  match s.storage.retention_policy with
  | .Delete => true
  | .Retain => false

/-- The container image for a node.  `StellarNodeSpec::container_image` is
declared in `src/crd/stellar_node.rs`, which is absent from `src/`; the
spec only says the image follows from the node kind and the declared
`version`, so the image is modelled as that pair, with no string format
invented. -/
structure ContainerImage where
  node_type : NodeType
  version : String
deriving DecidableEq, Repr

/-- Modelled from the spec: `container_image` derives the workload image
from the node kind and the declared `version`. -/
def StellarNodeSpec.container_image (s : StellarNodeSpec) : ContainerImage :=
  { node_type := s.node_type, version := s.version }

/-- The metadata of a `StellarNode` object, with the fields the controller
reads: `name` (via `name_any`), `namespace` (modelled as `ns`, since
`namespace` is a Lean keyword), `generation` and `uid`. -/
structure NodeMeta where
  name : Option String
  ns : Option String
  generation : Option Int
  uid : Option String
deriving DecidableEq, Repr

/-- The `StellarNode` custom resource: metadata plus spec. -/
structure StellarNode where
  metadata : NodeMeta
  spec : StellarNodeSpec
deriving DecidableEq, Repr

/-- `node.name_any()`: the metadata name, or `""` when absent. -/
def StellarNode.nameAny (n : StellarNode) : String :=
  n.metadata.name.getD ""

/-- `node.namespace().unwrap_or_else(|| "default".to_string())`: the
namespace resolution used by every operation of the controller. -/
def StellarNode.nsOrDefault (n : StellarNode) : String :=
  n.metadata.ns.getD "default"

/-- `Condition` from `src/crd/types.rs` (status condition entries). -/
structure Condition where
  type_ : String
  status : String
  last_transition_time : String
  reason : String
  message : String
deriving DecidableEq, Repr

/-- `StellarNodeStatus`: the status of the custom resource.  Its
declaration lives in `src/crd/stellar_node.rs`, absent from `src/`; the
field set is reconstructed from its construction in `update_status`
(`src/controller/reconciler.rs` lines 278–289: `phase`, `message`,
`observed_generation`, `replicas`, `ready_replicas`,
`..Default::default()`) and the spec schema (which also lists
`conditions`, defaulted to empty). -/
structure StellarNodeStatus where
  phase : String
  message : Option String
  observed_generation : Option Int
  replicas : Int
  ready_replicas : Int
  conditions : List Condition := []
deriving DecidableEq, Repr

/-- Modelled from the spec: the error type of `src/error.rs`, which is
absent from `src/`.  Its variants are reconstructed from their uses in
`src/`: `Error::ValidationError(String)` (reconciler.rs, resources.rs),
`Error::KubeError(kube::Error)` (everywhere a cluster call fails) and
`Error::ConfigError(String)` (run_controller, main.rs). -/
inductive KubeErr where
  /-- `kube::Error::Api(e)` with `e.code` the HTTP status code. -/
  | api (code : Nat)
  /-- any other `kube::Error`. -/
  | other (msg : String)
deriving DecidableEq, Repr

/-- The controller error type (see `KubeErr` above for provenance). -/
inductive Error where
  | ValidationError (msg : String)
  | KubeError (e : KubeErr)
  | ConfigError (msg : String)
deriving DecidableEq, Repr

/-- Modelled from the spec: `Error::is_retriable` lives in `src/error.rs`,
absent from `src/`.  The spec says validation failures are terminal for
the current generation and get the longer fixed delay, while "all other
failures are treated as transient" and get the shorter fixed delay; so
only `ValidationError` is non-retriable. -/
def Error.is_retriable : Error → Bool
  | .ValidationError _ => false
  | .KubeError _ => true
  | .ConfigError _ => true

/-- `Action` from the kube runtime, as used by the reconciler: requeue
after a number of seconds, or await an external change. -/
inductive Action where
  | requeue (secs : Nat)
  | awaitChange
deriving DecidableEq, Repr

/-- `error_policy` from `src/controller/reconciler.rs` lines 304–315. -/
def error_policy (e : Error) : Action :=
  .requeue (if e.is_retriable then 15 else 60)

/- ## Desired-state builders (`src/controller/resources.rs`) -/

/-- A simplified owner reference (from `owner_reference` in
`src/controller/resources.rs`).  The constant `api_version`/`kind` fields,
produced by the CRD schema macro in the absent `src/crd/stellar_node.rs`,
are omitted: no claim depends on them. -/
structure OwnerReference where
  name : String
  uid : String
  controller : Option Bool
  block_owner_deletion : Option Bool
deriving DecidableEq, Repr

/-- Object metadata carried by every built child resource. -/
structure ObjectMeta where
  name : Option String
  ns : Option String
  labels : Option (List (String × String)) := none
  annotations : Option (List (String × String)) := none
  owner_references : Option (List OwnerReference) := none
deriving DecidableEq, Repr

/-- `standard_labels` from `src/controller/resources.rs` lines 29–49, as
the association list a `BTreeMap` with those five keys iterates in
(ascending key order). -/
def standard_labels (node : StellarNode) : List (String × String) :=
  [("app.kubernetes.io/component", node.spec.node_type.toString.toLower),
   ("app.kubernetes.io/instance", node.nameAny),
   ("app.kubernetes.io/managed-by", "stellar-operator"),
   ("app.kubernetes.io/name", "stellar-node"),
   ("stellar.org/node-type", node.spec.node_type.toString)]

/-- `owner_reference` from `src/controller/resources.rs` lines 52–61. -/
def owner_reference (node : StellarNode) : OwnerReference :=
  { name := node.nameAny
    uid := node.metadata.uid.getD ""
    controller := some true
    block_owner_deletion := some true }

/-- `resource_name` from `src/controller/resources.rs` lines 64–66:
`format!("{}-{}", node.name_any(), suffix)`. -/
def resource_name (node : StellarNode) (suffix : String) : String :=
  node.nameAny ++ "-" ++ suffix

/-- The spec of a built `PersistentVolumeClaim`. -/
structure PersistentVolumeClaimSpec where
  access_modes : Option (List String)
  storage_class_name : Option String
  requests : Option (List (String × String))
deriving DecidableEq, Repr

/-- A built `PersistentVolumeClaim`. -/
structure PersistentVolumeClaim where
  metadata : ObjectMeta
  spec : Option PersistentVolumeClaimSpec
deriving DecidableEq, Repr

/-- `build_pvc` from `src/controller/resources.rs` lines 95–132. -/
def build_pvc (node : StellarNode) : PersistentVolumeClaim :=
  let annots := (node.spec.storage.annotations).getD []
  { metadata :=
      { name := some (resource_name node "data")
        ns := node.metadata.ns
        labels := some (standard_labels node)
        annotations := if annots.isEmpty then none else some annots
        owner_references := some [owner_reference node] }
    spec := some
      { access_modes := some ["ReadWriteOnce"]
        storage_class_name := some node.spec.storage.storage_class
        requests := some [("storage", node.spec.storage.size)] } }

/-- A built `ConfigMap`. -/
structure ConfigMap where
  metadata : ObjectMeta
  data : Option (List (String × String))
deriving DecidableEq, Repr

/-- `build_config_map` from `src/controller/resources.rs` lines 170–224.
The `data` map is listed in ascending key order (`BTreeMap` iteration):
`"INGEST" < "NETWORK_PASSPHRASE" < "STELLAR_CORE_URL" < "captive-core.cfg"
< "stellar-core.cfg"` in byte order. -/
def build_config_map (node : StellarNode) : ConfigMap :=
  let pass := ("NETWORK_PASSPHRASE", node.spec.network.passphrase)
  let data : List (String × String) :=
    match node.spec.node_type with
    | .Validator =>
      match node.spec.validator_config with
      | some cfg =>
        match cfg.quorum_set with
        | some quorum => [pass, ("stellar-core.cfg", quorum)]
        | none => [pass]
      | none => [pass]
    | .Horizon =>
      match node.spec.horizon_config with
      | some cfg =>
        [("INGEST", if cfg.enable_ingest then "true" else "false"), pass,
         ("STELLAR_CORE_URL", cfg.stellar_core_url)]
      | none => [pass]
    | .SorobanRpc =>
      match node.spec.soroban_config with
      | some cfg =>
        match cfg.captive_core_config with
        | some captive =>
          [pass, ("STELLAR_CORE_URL", cfg.stellar_core_url),
           ("captive-core.cfg", captive)]
        | none => [pass, ("STELLAR_CORE_URL", cfg.stellar_core_url)]
      | none => [pass]
  { metadata :=
      { name := some (resource_name node "config")
        ns := node.metadata.ns
        labels := some (standard_labels node)
        owner_references := some [owner_reference node] }
    data := some data }

/-- An environment variable of the built container. -/
structure EnvVar where
  name : String
  value : Option String
  value_from : Option SecretKeyRef := none
deriving DecidableEq, Repr

/-- A volume mount of the built container. -/
structure VolumeMount where
  name : String
  mount_path : String
  read_only : Option Bool := none
deriving DecidableEq, Repr

/-- The single container built by `build_container`. -/
structure Container where
  name : String
  image : Option ContainerImage
  ports : List Nat
  env : List EnvVar
  requests : List (String × String)
  limits : List (String × String)
  volume_mounts : List VolumeMount
deriving DecidableEq, Repr

/-- A pod volume (`data` backed by the PVC, `config` backed by the
ConfigMap). -/
structure Volume where
  name : String
  claim_name : Option String
  config_map_name : Option String
deriving DecidableEq, Repr

/-- The pod template built by `build_pod_template`. -/
structure PodTemplateSpec where
  labels : List (String × String)
  containers : List Container
  volumes : List Volume
deriving DecidableEq, Repr

/-- `build_container` from `src/controller/resources.rs` lines 504–582. -/
def build_container (node : StellarNode) : Container :=
  let portMountDb : Nat × String × String :=
    match node.spec.node_type with
    | .Validator => (11625, "/opt/stellar/data", "DATABASE")
    | .Horizon => (8000, "/data", "DATABASE_URL")
    | .SorobanRpc => (8000, "/data", "DATABASE_URL")
  let baseEnv : List EnvVar :=
    [{ name := "NETWORK_PASSPHRASE", value := some node.spec.network.passphrase }]
  let envVars : List EnvVar :=
    match node.spec.database with
    | some db =>
      baseEnv ++
        [{ name := portMountDb.2.2, value := none,
           value_from := some db.secret_key_ref }]
    | none => baseEnv
  { name := "stellar-node"
    image := some node.spec.container_image
    ports := [portMountDb.1]
    env := envVars
    requests :=
      [("cpu", node.spec.resources.requests.cpu),
       ("memory", node.spec.resources.requests.memory)]
    limits :=
      [("cpu", node.spec.resources.limits.cpu),
       ("memory", node.spec.resources.limits.memory)]
    volume_mounts :=
      [{ name := "data", mount_path := portMountDb.2.1 },
       { name := "config", mount_path := "/config", read_only := some true }] }

/-- `build_pod_template` from `src/controller/resources.rs` lines 469–502. -/
def build_pod_template (node : StellarNode) (labels : List (String × String)) :
    PodTemplateSpec :=
  { labels := labels
    containers := [build_container node]
    volumes :=
      [{ name := "data", claim_name := some (resource_name node "data"),
         config_map_name := none },
       { name := "config", claim_name := none,
         config_map_name := some (resource_name node "config") }] }

/-- A label selector (`match_labels`). -/
structure LabelSelector where
  match_labels : Option (List (String × String))
deriving DecidableEq, Repr

/-- The spec of a built `Deployment`. -/
structure DeploymentSpec where
  replicas : Option Int
  selector : LabelSelector
  template : PodTemplateSpec
deriving DecidableEq, Repr

/-- A built `Deployment`. -/
structure Deployment where
  metadata : ObjectMeta
  spec : Option DeploymentSpec
deriving DecidableEq, Repr

/-- `build_deployment` from `src/controller/resources.rs` lines 266–295:
replicas = 0 when suspended, else the declared `spec.replicas`. -/
def build_deployment (node : StellarNode) : Deployment :=
  let labels := standard_labels node
  let replicas : Int := if node.spec.suspended then 0 else node.spec.replicas
  { metadata :=
      { name := some node.nameAny
        ns := node.metadata.ns
        labels := some labels
        owner_references := some [owner_reference node] }
    spec := some
      { replicas := some replicas
        selector := { match_labels := some labels }
        template := build_pod_template node labels } }

/-- The spec of a built `StatefulSet`. -/
structure StatefulSetSpec where
  replicas : Option Int
  selector : LabelSelector
  service_name : String
  template : PodTemplateSpec
deriving DecidableEq, Repr

/-- A built `StatefulSet`. -/
structure StatefulSet where
  metadata : ObjectMeta
  spec : Option StatefulSetSpec
deriving DecidableEq, Repr

/-- `build_statefulset` from `src/controller/resources.rs` lines 320–346:
replicas = 0 when suspended, else pinned to 1 ("Validators always have 1
replica"), ignoring the declared `spec.replicas`. -/
def build_statefulset (node : StellarNode) : StatefulSet :=
  let labels := standard_labels node
  let replicas : Int := if node.spec.suspended then 0 else 1
  { metadata :=
      { name := some node.nameAny
        ns := node.metadata.ns
        labels := some labels
        owner_references := some [owner_reference node] }
    spec := some
      { replicas := some replicas
        selector := { match_labels := some labels }
        service_name := node.nameAny ++ "-headless"
        template := build_pod_template node labels } }

/-- A service port. -/
structure ServicePort where
  name : Option String
  port : Nat
deriving DecidableEq, Repr

/-- A built `Service`. -/
structure Service where
  metadata : ObjectMeta
  selector : Option (List (String × String))
  ports : Option (List ServicePort)
deriving DecidableEq, Repr

/-- `build_service` from `src/controller/resources.rs` lines 402–446. -/
def build_service (node : StellarNode) : Service :=
  let labels := standard_labels node
  let ports : List ServicePort :=
    match node.spec.node_type with
    | .Validator =>
      [{ name := some "peer", port := 11625 },
       { name := some "http", port := 11626 }]
    | .Horizon => [{ name := some "http", port := 8000 }]
    | .SorobanRpc => [{ name := some "http", port := 8000 }]
  { metadata :=
      { name := some node.nameAny
        ns := node.metadata.ns
        labels := some labels
        owner_references := some [owner_reference node] }
    selector := some labels
    ports := some ports }

/-- The scale target reference of a built autoscaler. -/
structure CrossVersionObjectReference where
  api_version : Option String
  kind : String
  name : String
deriving DecidableEq, Repr

/-- The spec of a built `HorizontalPodAutoscaler`. -/
structure HorizontalPodAutoscalerSpec where
  scale_target_ref : CrossVersionObjectReference
  min_replicas : Option Int
  max_replicas : Int
deriving DecidableEq, Repr

/-- A built `HorizontalPodAutoscaler`. -/
structure HorizontalPodAutoscaler where
  metadata : ObjectMeta
  spec : Option HorizontalPodAutoscalerSpec
deriving DecidableEq, Repr

/-- `build_hpa` from `src/controller/resources.rs` lines 616–660: fails
with a `ValidationError` when no autoscaling block is present, otherwise
targets the Deployment named after the node and wires only the min/max
replica bounds (`metrics: None`). -/
def build_hpa (node : StellarNode) : Except Error HorizontalPodAutoscaler :=
  match node.spec.autoscaling with
  | none => .error (.ValidationError "Autoscaling config not found")
  | some autoscaling =>
    .ok
      { metadata :=
          { name := some (resource_name node "hpa")
            ns := some node.nsOrDefault
            labels := some (standard_labels node)
            owner_references := some [owner_reference node] }
        spec := some
          { scale_target_ref :=
              { api_version := some "apps/v1"
                kind := "Deployment"
                name := node.nameAny }
            min_replicas := some autoscaling.min_replicas
            max_replicas := autoscaling.max_replicas } }

/- ## Cluster interaction model -/

/-- One cluster-API call issued by the controller, recorded with the
namespace it targets, the object name, and the built object where one is
sent.  Every constructor's first field is the target namespace. -/
inductive Step where
  /-- `api.patch_status` in `update_status`, carrying the written status. -/
  | statusWrite (ns name : String) (st : StellarNodeStatus)
  /-- `api.get` in `ensure_pvc`. -/
  | pvcGet (ns name : String)
  /-- `api.create` in `ensure_pvc`. -/
  | pvcCreate (ns : String) (pvc : PersistentVolumeClaim)
  /-- `api.patch` (server-side apply) in `ensure_config_map`. -/
  | cmApply (ns : String) (cm : ConfigMap)
  /-- forced server-side apply in `ensure_statefulset`. -/
  | stsApply (ns : String) (sts : StatefulSet)
  /-- forced server-side apply in `ensure_deployment`. -/
  | depApply (ns : String) (dep : Deployment)
  /-- forced server-side apply in `ensure_service`. -/
  | svcApply (ns : String) (svc : Service)
  /-- forced server-side apply in `ensure_hpa`. -/
  | hpaApply (ns : String) (hpa : HorizontalPodAutoscaler)
  /-- `api.get` on the workload in `get_ready_replicas`. -/
  | workloadGet (ns name : String)
  /-- `api.delete` in `delete_service`. -/
  | svcDelete (ns name : String)
  /-- `api.delete` in `delete_workload`. -/
  | workloadDelete (ns name : String)
  /-- `api.delete` in `delete_config_map`. -/
  | cmDelete (ns name : String)
  /-- `api.delete` in `delete_pvc`. -/
  | pvcDelete (ns name : String)
deriving DecidableEq, Repr

/-- The namespace a step targets (always its first field). -/
def Step.ns : Step → String
  | .statusWrite n _ _ => n
  | .pvcGet n _ => n
  | .pvcCreate n _ => n
  | .cmApply n _ => n
  | .stsApply n _ => n
  | .depApply n _ => n
  | .svcApply n _ => n
  | .hpaApply n _ => n
  | .workloadGet n _ => n
  | .svcDelete n _ => n
  | .workloadDelete n _ => n
  | .cmDelete n _ => n
  | .pvcDelete n _ => n

/-- Whether a step is the autoscaler apply call. -/
def Step.isHpaApply : Step → Bool
  | .hpaApply _ _ => true
  | _ => false

/-- Whether a step is the storage-claim delete call. -/
def Step.isPvcDelete : Step → Bool
  | .pvcDelete _ _ => true
  | _ => false

/-- Whether a step mutates a child resource (anything but a status write
or a read). -/
def Step.isChildMutation : Step → Bool
  | .statusWrite _ _ _ => false
  | .pvcGet _ _ => false
  | .workloadGet _ _ => false
  | _ => true

/-- The status carried by a status-write step, if any. -/
def Step.writtenStatus : Step → Option StellarNodeStatus
  | .statusWrite _ _ st => some st
  | _ => none

/-- The workload object sent by a workload-apply step, if any. -/
def Step.workloadApplied : Step → Option (StatefulSet ⊕ Deployment)
  | .stsApply _ sts => some (.inl sts)
  | .depApply _ dep => some (.inr dep)
  | _ => none

/-- The environment answering each cluster-API call the controller can
make.  A `.ok` answer means the call succeeded; `.error e` is the
`kube::Error` it failed with (`.api 404` being "not found"). -/
structure Env where
  /-- result of `api.patch_status` for a given written status. -/
  statusPatch : StellarNodeStatus → Except KubeErr Unit
  /-- result of the PVC `api.get` (`.ok` = the claim exists). -/
  pvcGetRes : Except KubeErr Unit
  /-- result of the PVC `api.create`. -/
  pvcCreateRes : Except KubeErr Unit
  /-- result of the ConfigMap apply. -/
  cmApplyRes : Except KubeErr Unit
  /-- result of the StatefulSet apply. -/
  stsApplyRes : Except KubeErr Unit
  /-- result of the Deployment apply. -/
  depApplyRes : Except KubeErr Unit
  /-- result of the Service apply. -/
  svcApplyRes : Except KubeErr Unit
  /-- result of the HPA apply. -/
  hpaApplyRes : Except KubeErr Unit
  /-- result of the workload `api.get`: the workload's
  `status.ready_replicas` (an optional count) on success. -/
  workloadGetRes : Except KubeErr (Option Int)
  /-- result of the Service delete. -/
  svcDeleteRes : Except KubeErr Unit
  /-- result of the workload delete. -/
  workloadDeleteRes : Except KubeErr Unit
  /-- result of the ConfigMap delete. -/
  cmDeleteRes : Except KubeErr Unit
  /-- result of the PVC delete. -/
  pvcDeleteRes : Except KubeErr Unit

/-- An operation's outcome: the calls it issued, in order, next to its
`Result` value. -/
def Outcome (α : Type) := List Step × Except Error α

/-- Sequencing of traced fallible operations: on failure the remaining
steps are not attempted (Rust `?`), and traces concatenate. -/
def stepBind {α : Type} (a : Outcome Unit) (f : Unit → Outcome α) : Outcome α :=
  match a with
  | (t, .error e) => (t, .error e)
  | (t, .ok _) =>
    let r := f ()
    (t ++ r.1, r.2)

/-- The status object `update_status` constructs
(`src/controller/reconciler.rs` lines 278–289): phase and message as
given, `observed_generation` always the node's metadata generation,
`replicas` 0 when suspended else the declared count, and the given ready
count; remaining fields defaulted. -/
def statusFor (node : StellarNode) (phase : String) (message : Option String)
    (ready_replicas : Int) : StellarNodeStatus :=
  { phase := phase
    message := message
    observed_generation := node.metadata.generation
    replicas := if node.spec.suspended then 0 else node.spec.replicas
    ready_replicas := ready_replicas }

/-- `update_status` from `src/controller/reconciler.rs` lines 268–301:
one status patch against the node's namespace (defaulted), failing with
`Error::KubeError` when the patch fails. -/
def update_status (env : Env) (node : StellarNode) (phase : String)
    (message : Option String) (ready_replicas : Int) : Outcome Unit :=
  let st := statusFor node phase message ready_replicas
  ([.statusWrite node.nsOrDefault node.nameAny st],
   match env.statusPatch st with
   | .ok _ => .ok ()
   | .error e => .error (.KubeError e))

/-- `ensure_pvc` from `src/controller/resources.rs` lines 73–93:
get-or-create.  If the get succeeds the claim is left untouched; a 404
triggers a create of the built claim; any other get error is returned. -/
def ensure_pvc (env : Env) (node : StellarNode) : Outcome Unit :=
  let ns := node.nsOrDefault
  let name := resource_name node "data"
  let pvc := build_pvc node
  match env.pvcGetRes with
  | .ok _ => ([.pvcGet ns name], .ok ())
  | .error e =>
    if e = .api 404 then
      ([.pvcGet ns name, .pvcCreate ns pvc],
       match env.pvcCreateRes with
       | .ok _ => .ok ()
       | .error e2 => .error (.KubeError e2))
    else ([.pvcGet ns name], .error (.KubeError e))

/-- `ensure_config_map` from `src/controller/resources.rs` lines 156–168:
a single server-side apply of the fully regenerated ConfigMap. -/
def ensure_config_map (env : Env) (node : StellarNode) : Outcome Unit :=
  ([.cmApply node.nsOrDefault (build_config_map node)],
   match env.cmApplyRes with
   | .ok _ => .ok ()
   | .error e => .error (.KubeError e))

/-- `ensure_statefulset` from `src/controller/resources.rs` lines 302–318:
a single forced server-side apply of the built StatefulSet. -/
def ensure_statefulset (env : Env) (node : StellarNode) : Outcome Unit :=
  ([.stsApply node.nsOrDefault (build_statefulset node)],
   match env.stsApplyRes with
   | .ok _ => .ok ()
   | .error e => .error (.KubeError e))

/-- `ensure_deployment` from `src/controller/resources.rs` lines 248–264:
a single forced server-side apply of the built Deployment. -/
def ensure_deployment (env : Env) (node : StellarNode) : Outcome Unit :=
  ([.depApply node.nsOrDefault (build_deployment node)],
   match env.depApplyRes with
   | .ok _ => .ok ()
   | .error e => .error (.KubeError e))

/-- `ensure_service` from `src/controller/resources.rs` lines 384–400:
a single forced server-side apply of the built Service. -/
def ensure_service (env : Env) (node : StellarNode) : Outcome Unit :=
  ([.svcApply node.nsOrDefault (build_service node)],
   match env.svcApplyRes with
   | .ok _ => .ok ()
   | .error e => .error (.KubeError e))

/-- `ensure_hpa` from `src/controller/resources.rs` lines 588–614: an
early no-op return unless the node kind is Horizon or SorobanRpc and an
autoscaling block is present; otherwise a forced server-side apply of the
built HPA named `<node-name>-hpa`. -/
def ensure_hpa (env : Env) (node : StellarNode) : Outcome Unit :=
  if (node.spec.node_type = .Horizon ∨ node.spec.node_type = .SorobanRpc)
      ∧ node.spec.autoscaling.isSome then
    match build_hpa node with
    | .error e => ([], .error e)
    | .ok hpa =>
      ([.hpaApply node.nsOrDefault hpa],
       match env.hpaApplyRes with
       | .ok _ => .ok ()
       | .error e => .error (.KubeError e))
  else
    ([], .ok ())

/-- `get_ready_replicas` from `src/controller/reconciler.rs` lines
223–265: one workload get (StatefulSet for validators, Deployment
otherwise — both against the same name and namespace); a missing ready
count or a failed get yields `Ok 0`, never an error. -/
def get_ready_replicas (env : Env) (node : StellarNode) : Outcome Int :=
  ([.workloadGet node.nsOrDefault node.nameAny],
   match env.workloadGetRes with
   | .ok ready => .ok (ready.getD 0)
   | .error _ => .ok 0)

/-- `delete_service` from `src/controller/resources.rs` lines 449–463:
delete treating 404 as success. -/
def delete_service (env : Env) (node : StellarNode) : Outcome Unit :=
  ([.svcDelete node.nsOrDefault node.nameAny],
   match env.svcDeleteRes with
   | .ok _ => .ok ()
   | .error e => if e = .api 404 then .ok () else .error (.KubeError e))

/-- `delete_workload` from `src/controller/resources.rs` lines 349–377:
delete of the StatefulSet (validators) or Deployment (others), treating
404 as success. -/
def delete_workload (env : Env) (node : StellarNode) : Outcome Unit :=
  ([.workloadDelete node.nsOrDefault node.nameAny],
   match env.workloadDeleteRes with
   | .ok _ => .ok ()
   | .error e => if e = .api 404 then .ok () else .error (.KubeError e))

/-- `delete_config_map` from `src/controller/resources.rs` lines 227–241:
delete treating 404 as success. -/
def delete_config_map (env : Env) (node : StellarNode) : Outcome Unit :=
  ([.cmDelete node.nsOrDefault (resource_name node "config")],
   match env.cmDeleteRes with
   | .ok _ => .ok ()
   | .error e => if e = .api 404 then .ok () else .error (.KubeError e))

/-- `delete_pvc` from `src/controller/resources.rs` lines 135–149:
delete treating 404 as success. -/
def delete_pvc (env : Env) (node : StellarNode) : Outcome Unit :=
  ([.pvcDelete node.nsOrDefault (resource_name node "data")],
   match env.pvcDeleteRes with
   | .ok _ => .ok ()
   | .error e => if e = .api 404 then .ok () else .error (.KubeError e))

/- ## The reconciler (`src/controller/reconciler.rs`) -/

/-- `apply_stellar_node` from `src/controller/reconciler.rs` lines
105–174, step by step: validate (on failure write phase=Failed with the
message, then surface `ValidationError`); when suspended write an interim
Suspended status; write the interim Creating status; ensure PVC,
ConfigMap, workload (StatefulSet for validators, Deployment otherwise)
and Service; read back ready replicas (best-effort); write the final
Suspended/Running status; requeue after 30 seconds. -/
def apply_stellar_node (env : Env) (node : StellarNode) : Outcome Action :=
  match node.spec.validate with
  | .error e =>
    let w := update_status env node "Failed" (some e) 0
    (w.1,
     match w.2 with
     | .ok _ => .error (.ValidationError e)
     | .error err => .error err)
  | .ok _ =>
    stepBind
      (if node.spec.suspended then
        update_status env node "Suspended" (some "Node is suspended") 0
      else ([], .ok ())) fun _ =>
    stepBind (update_status env node "Creating" (some "Creating resources") 0)
      fun _ =>
    stepBind (ensure_pvc env node) fun _ =>
    stepBind (ensure_config_map env node) fun _ =>
    stepBind
      (match node.spec.node_type with
       | .Validator => ensure_statefulset env node
       | .Horizon => ensure_deployment env node
       | .SorobanRpc => ensure_deployment env node) fun _ =>
    stepBind (ensure_service env node) fun _ =>
    let g := get_ready_replicas env node
    let ready : Int := match g.2 with | .ok v => v | .error _ => 0
    let phase := if node.spec.suspended then "Suspended" else "Running"
    let w := update_status env node phase
      (some "Resources created successfully") ready
    (g.1 ++ w.1,
     match w.2 with
     | .ok _ => .ok (.requeue 30)
     | .error e => .error e)

/-- `cleanup_stellar_node` from `src/controller/reconciler.rs` lines
177–220: delete Service, workload and ConfigMap, then the PVC only when
the retention policy says Delete; every delete failure is logged and
ignored, and cleanup always finishes with `Action::await_change()`
(signalling finalizer completion). -/
def cleanup_stellar_node (env : Env) (node : StellarNode) : Outcome Action :=
  let t1 := (delete_service env node).1
  let t2 := (delete_workload env node).1
  let t3 := (delete_config_map env node).1
  let t4 :=
    if node.spec.should_delete_pvc then (delete_pvc env node).1 else []
  (t1 ++ t2 ++ t3 ++ t4, .ok .awaitChange)

/-- The finalizer event dispatched to the reconciler (kube runtime
`Event::Apply` / `Event::Cleanup`). -/
inductive FinalizerEvent where
  | Apply
  | Cleanup
deriving DecidableEq, Repr

/-- `reconcile` from `src/controller/reconciler.rs` lines 81–102: the
namespace it builds the `Api` against (defaulted to `"default"`), next to
the dispatched apply/cleanup outcome. -/
def reconcile (env : Env) (ev : FinalizerEvent) (node : StellarNode) :
    String × Outcome Action :=
  (node.nsOrDefault,
   match ev with
   | .Apply => apply_stellar_node env node
   | .Cleanup => cleanup_stellar_node env node)

/- ## Concrete fixtures -/

/-- An environment in which every cluster call succeeds; the workload
read reports one ready replica. -/
def okEnv : Env :=
  { statusPatch := fun _ => .ok ()
    pvcGetRes := .ok ()
    pvcCreateRes := .ok ()
    cmApplyRes := .ok ()
    stsApplyRes := .ok ()
    depApplyRes := .ok ()
    svcApplyRes := .ok ()
    hpaApplyRes := .ok ()
    workloadGetRes := .ok (some 1)
    svcDeleteRes := .ok ()
    workloadDeleteRes := .ok ()
    cmDeleteRes := .ok ()
    pvcDeleteRes := .ok () }

/-- `okEnv` with the PVC get answering 404 (claim absent). -/
def pvcAbsentEnv : Env := { okEnv with pvcGetRes := .error (.api 404) }

/-- `okEnv` with the PVC get failing with a non-404 error. -/
def pvcGetFailEnv : Env := { okEnv with pvcGetRes := .error (.api 500) }

/-- An environment in which every delete call fails with a non-404
error. -/
def deletesFailEnv : Env :=
  { okEnv with
    svcDeleteRes := .error (.other "boom")
    workloadDeleteRes := .error (.other "boom")
    cmDeleteRes := .error (.other "boom")
    pvcDeleteRes := .error (.other "boom") }

/-- Default compute resources, as in `ResourceRequirements::default`. -/
def demoResources : ResourceRequirements :=
  { requests := { cpu := "500m", memory := "1Gi" }
    limits := { cpu := "2", memory := "4Gi" } }

/-- Default storage, policy Delete, as in `StorageConfig::default`. -/
def demoStorage : StorageConfig :=
  { storage_class := "standard"
    size := "100Gi"
    retention_policy := .Delete
    annotations := none }

/-- A Horizon node with autoscaling configured (3 declared replicas,
autoscaler bounds 1–5), in namespace `stellar`, generation 3. -/
def horizonAsNode : StellarNode :=
  { metadata :=
      { name := some "horizon-a", ns := some "stellar",
        generation := some 3, uid := some "uid-1" }
    spec :=
      { node_type := .Horizon
        network := .Testnet
        version := "2.27.0"
        replicas := 3
        suspended := false
        storage := demoStorage
        resources := demoResources
        validator_config := none
        horizon_config := none
        soroban_config := none
        database := none
        autoscaling := some
          { min_replicas := 1, max_replicas := 5, custom_metrics := [] } } }

/-- A non-suspended Validator declared with 5 replicas, generation 2. -/
def validator5Node : StellarNode :=
  { metadata :=
      { name := some "val-a", ns := some "stellar",
        generation := some 2, uid := some "uid-2" }
    spec :=
      { node_type := .Validator
        network := .Testnet
        version := "21.0.0"
        replicas := 5
        suspended := false
        storage := demoStorage
        resources := demoResources
        validator_config := none
        horizon_config := none
        soroban_config := none
        database := none
        autoscaling := none } }

/-- A node whose spec fails validation (negative replica count),
generation 3. -/
def failNode : StellarNode :=
  { metadata :=
      { name := some "bad-node", ns := some "stellar",
        generation := some 3, uid := some "uid-3" }
    spec :=
      { node_type := .Horizon
        network := .Testnet
        version := "2.27.0"
        replicas := -1
        suspended := false
        storage := demoStorage
        resources := demoResources
        validator_config := none
        horizon_config := none
        soroban_config := none
        database := none
        autoscaling := none } }

/-- A node carrying no namespace. -/
def noNsNode : StellarNode :=
  { metadata :=
      { name := some "nons", ns := none,
        generation := some 1, uid := some "uid-4" }
    spec :=
      { node_type := .SorobanRpc
        network := .Futurenet
        version := "21.0.0"
        replicas := 2
        suspended := false
        storage := demoStorage
        resources := demoResources
        validator_config := none
        horizon_config := none
        soroban_config := none
        database := none
        autoscaling := none } }

/-- A node whose storage retention policy is Retain. -/
def retainNode : StellarNode :=
  { metadata :=
      { name := some "keeper", ns := some "stellar",
        generation := some 4, uid := some "uid-5" }
    spec :=
      { node_type := .Validator
        network := .Mainnet
        version := "21.0.0"
        replicas := 1
        suspended := false
        storage := { demoStorage with retention_policy := .Retain }
        resources := demoResources
        validator_config := none
        horizon_config := none
        soroban_config := none
        database := none
        autoscaling := none } }

/- ## Trace characterization lemmas -/

/-- A step of `stepBind` comes from the first operation or (when it
succeeded) from the continuation. -/
theorem mem_stepBind {α : Type} {a : Outcome Unit} {f : Unit → Outcome α}
    {s : Step} (h : s ∈ (stepBind a f).1) : s ∈ a.1 ∨ s ∈ (f ()).1 := by
  rcases a with ⟨t, r⟩
  cases r with
  | error e => exact .inl h
  | ok u =>
    simp only [stepBind] at h
    exact List.mem_append.1 h

/-- The trace of `update_status` is the one status write. -/
theorem update_status_trace (env : Env) (node : StellarNode) (phase : String)
    (message : Option String) (ready : Int) :
    (update_status env node phase message ready).1 =
      [Step.statusWrite node.nsOrDefault node.nameAny
        (statusFor node phase message ready)] := rfl

/-- The calls `ensure_pvc` can issue: the get, and the create of the
built claim. -/
theorem ensure_pvc_mem (env : Env) (node : StellarNode) {s : Step}
    (h : s ∈ (ensure_pvc env node).1) :
    s = Step.pvcGet node.nsOrDefault (resource_name node "data")
    ∨ s = Step.pvcCreate node.nsOrDefault (build_pvc node) := by
  unfold ensure_pvc at h
  split at h <;> (try split at h) <;> simp_all

/-- Everything a step of the apply path can be: a status write built by
`statusFor`, the PVC get/create, the ConfigMap apply, the workload apply
matching the node kind, the Service apply, or the workload read.  In
particular the apply path never issues an autoscaler call. -/
def ApplyStep (node : StellarNode) (s : Step) : Prop :=
  (∃ phase message ready,
      s = Step.statusWrite node.nsOrDefault node.nameAny
        (statusFor node phase message ready))
  ∨ s = Step.pvcGet node.nsOrDefault (resource_name node "data")
  ∨ s = Step.pvcCreate node.nsOrDefault (build_pvc node)
  ∨ s = Step.cmApply node.nsOrDefault (build_config_map node)
  ∨ (node.spec.node_type = .Validator
      ∧ s = Step.stsApply node.nsOrDefault (build_statefulset node))
  ∨ (node.spec.node_type ≠ .Validator
      ∧ s = Step.depApply node.nsOrDefault (build_deployment node))
  ∨ s = Step.svcApply node.nsOrDefault (build_service node)
  ∨ s = Step.workloadGet node.nsOrDefault node.nameAny

/-- Every step issued by `apply_stellar_node` is an `ApplyStep`. -/
theorem apply_steps_char (env : Env) (node : StellarNode) :
    ∀ s ∈ (apply_stellar_node env node).1, ApplyStep node s := by
  intro s hs
  unfold apply_stellar_node at hs
  rcases hval : node.spec.validate with e | u <;> rw [hval] at hs
  · rw [update_status_trace] at hs
    simp only [List.mem_singleton] at hs
    exact .inl ⟨"Failed", some e, 0, hs⟩
  · rcases mem_stepBind hs with h | hs
    · by_cases hsusp : node.spec.suspended
      · rw [if_pos hsusp, update_status_trace] at h
        simp only [List.mem_singleton] at h
        exact .inl ⟨"Suspended", some "Node is suspended", 0, h⟩
      · rw [if_neg hsusp] at h
        exact absurd h (List.not_mem_nil s)
    · rcases mem_stepBind hs with h | hs
      · rw [update_status_trace] at h
        simp only [List.mem_singleton] at h
        exact .inl ⟨"Creating", some "Creating resources", 0, h⟩
      · rcases mem_stepBind hs with h | hs
        · rcases ensure_pvc_mem env node h with h | h
          · exact .inr (.inl h)
          · exact .inr (.inr (.inl h))
        · rcases mem_stepBind hs with h | hs
          · simp only [ensure_config_map, List.mem_singleton] at h
            exact .inr (.inr (.inr (.inl h)))
          · rcases mem_stepBind hs with h | hs
            · rcases htype : node.spec.node_type with _ | _ | _ <;>
                rw [htype] at h <;>
                simp only [ensure_statefulset, ensure_deployment,
                  List.mem_singleton] at h
              · exact .inr (.inr (.inr (.inr (.inl ⟨htype, h⟩))))
              · exact .inr (.inr (.inr (.inr (.inr (.inl
                  ⟨(by rw [htype]; intro hc; cases hc), h⟩)))))
              · exact .inr (.inr (.inr (.inr (.inr (.inl
                  ⟨(by rw [htype]; intro hc; cases hc), h⟩)))))
            · rcases mem_stepBind hs with h | hs
              · simp only [ensure_service, List.mem_singleton] at h
                exact .inr (.inr (.inr (.inr (.inr (.inr (.inl h))))))
              · rcases List.mem_append.1 hs with h | h
                · simp only [get_ready_replicas, List.mem_singleton] at h
                  exact .inr (.inr (.inr (.inr (.inr (.inr (.inr h))))))
                · rw [update_status_trace] at h
                  simp only [List.mem_singleton] at h
                  exact .inl ⟨_, _, _, h⟩

/-- Every step of the apply path targets the node's (defaulted)
namespace. -/
theorem apply_steps_ns (env : Env) (node : StellarNode) :
    ∀ s ∈ (apply_stellar_node env node).1, s.ns = node.nsOrDefault := by
  intro s hs
  rcases apply_steps_char env node s hs with
    ⟨p, m, r, rfl⟩ | rfl | rfl | rfl | ⟨_, rfl⟩ | ⟨_, rfl⟩ | rfl | rfl <;> rfl

/-- The apply path never issues an autoscaler call. -/
theorem apply_steps_no_hpa (env : Env) (node : StellarNode) :
    ∀ s ∈ (apply_stellar_node env node).1, s.isHpaApply = false := by
  intro s hs
  rcases apply_steps_char env node s hs with
    ⟨p, m, r, rfl⟩ | rfl | rfl | rfl | ⟨_, rfl⟩ | ⟨_, rfl⟩ | rfl | rfl <;> rfl

/-- Every status written by the apply path is a `statusFor` status: its
`observed_generation` is the node's metadata generation and its
`replicas` is 0 when suspended, else the declared count. -/
theorem apply_steps_status (env : Env) (node : StellarNode) :
    ∀ s ∈ (apply_stellar_node env node).1, ∀ st ∈ s.writtenStatus,
      st.observed_generation = node.metadata.generation
      ∧ st.replicas = (if node.spec.suspended then 0 else node.spec.replicas) := by
  intro s hs st hst
  rcases apply_steps_char env node s hs with
    ⟨p, m, r, rfl⟩ | rfl | rfl | rfl | ⟨_, rfl⟩ | ⟨_, rfl⟩ | rfl | rfl <;>
    simp only [Step.writtenStatus, Option.mem_def, Option.some_inj] at hst <;>
    try cases hst
  exact ⟨rfl, rfl⟩

/-- The trace of `cleanup_stellar_node`, independent of the environment:
Service, workload and ConfigMap deletes, then the PVC delete exactly when
the retention policy says Delete. -/
theorem cleanup_trace (env : Env) (node : StellarNode) :
    cleanup_stellar_node env node =
      ([Step.svcDelete node.nsOrDefault node.nameAny,
        Step.workloadDelete node.nsOrDefault node.nameAny,
        Step.cmDelete node.nsOrDefault (resource_name node "config")] ++
        (if node.spec.should_delete_pvc then
          [Step.pvcDelete node.nsOrDefault (resource_name node "data")]
        else []),
       .ok .awaitChange) := by
  unfold cleanup_stellar_node delete_service delete_workload
    delete_config_map delete_pvc
  by_cases h : node.spec.should_delete_pvc <;> simp [h]

/-- Every step of the cleanup path targets the node's (defaulted)
namespace. -/
theorem cleanup_steps_ns (env : Env) (node : StellarNode) :
    ∀ s ∈ (cleanup_stellar_node env node).1, s.ns = node.nsOrDefault := by
  intro s hs
  rw [cleanup_trace env node] at hs
  by_cases h : node.spec.should_delete_pvc
  · simp [h] at hs
    rcases hs with rfl | rfl | rfl | rfl <;> rfl
  · simp [h] at hs
    rcases hs with rfl | rfl | rfl <;> rfl

/-- Every step of `ensure_hpa` targets the node's (defaulted)
namespace. -/
theorem ensure_hpa_steps_ns (env : Env) (node : StellarNode) :
    ∀ s ∈ (ensure_hpa env node).1, s.ns = node.nsOrDefault := by
  intro s hs
  unfold ensure_hpa at hs
  split at hs
  · split at hs
    · exact absurd hs (List.not_mem_nil s)
    · simp only [List.mem_singleton] at hs
      subst hs
      rfl
  · exact absurd hs (List.not_mem_nil s)

/-- The workload `apply_stellar_node` ensures, by node kind
(`src/controller/reconciler.rs` lines 137–148): the built StatefulSet for
validators, the built Deployment for Horizon and SorobanRpc. -/
def chosenWorkload (node : StellarNode) : StatefulSet ⊕ Deployment :=
  match node.spec.node_type with
  | .Validator => .inl (build_statefulset node)
  | .Horizon => .inr (build_deployment node)
  | .SorobanRpc => .inr (build_deployment node)

/- ## Claim theorems -/

/-- C1, counterexample: `horizonAsNode` is a Horizon node with
autoscaling configured, yet a fully successful apply-path reconcile
issues no autoscaler call at all — the claim that every such reconcile
performs the ensure-autoscaler step after ensuring the network endpoint
is false on the code (`apply_stellar_node` never invokes `ensure_hpa`). -/
theorem C1_counterexample :
    horizonAsNode.spec.node_type = NodeType.Horizon
    ∧ horizonAsNode.spec.autoscaling.isSome = true
    ∧ (apply_stellar_node okEnv horizonAsNode).2 = .ok (.requeue 30)
    ∧ ((apply_stellar_node okEnv horizonAsNode).1.any Step.isHpaApply) = false := by
  refine ⟨rfl, rfl, ?_, ?_⟩ <;> rfl

/-- C1, amended: the apply path never issues an autoscaler call for any
node or environment (`ensure_hpa` is defined but never invoked by the
reconciler); `ensure_hpa` itself, when called, is a no-op unless the
node kind is stateless (Horizon or SorobanRpc) and autoscaling is
configured, and otherwise issues exactly one apply of the HPA named
`<node-name>-hpa`. -/
theorem C1_hpa_step (env : Env) (node : StellarNode) :
    ((apply_stellar_node env node).1.any Step.isHpaApply) = false
    ∧ (if (node.spec.node_type = .Horizon ∨ node.spec.node_type = .SorobanRpc)
          ∧ node.spec.autoscaling.isSome then
        ∃ hpa, build_hpa node = .ok hpa
          ∧ hpa.metadata.name = some (resource_name node "hpa")
          ∧ (ensure_hpa env node).1 = [Step.hpaApply node.nsOrDefault hpa]
      else ensure_hpa env node = ([], Except.ok ())) := by
  constructor
  · rw [List.any_eq_false]
    intro s hs
    simp [apply_steps_no_hpa env node s hs]
  · by_cases hgate : (node.spec.node_type = .Horizon
        ∨ node.spec.node_type = .SorobanRpc) ∧ node.spec.autoscaling.isSome
    · rw [if_pos hgate]
      obtain ⟨a, ha⟩ := Option.isSome_iff_exists.1 hgate.2
      cases hb : build_hpa node with
      | error e =>
        exfalso
        unfold build_hpa at hb
        rw [ha] at hb
        cases hb
      | ok hpa =>
        have hb2 := hb
        unfold build_hpa at hb2
        rw [ha] at hb2
        injection hb2 with hb2
        subst hb2
        refine ⟨_, rfl, rfl, ?_⟩
        unfold ensure_hpa
        rw [if_pos hgate, hb]
    · rw [if_neg hgate]
      unfold ensure_hpa
      rw [if_neg hgate]

/-- C2, counterexample: the status write made on validation failure
(`failNode`, phase Failed) does set `observedGeneration` to the node's
metadata generation (3), and so does the interim Creating write of a
successful cycle (`validator5Node`, generation 2) — refuting the claim
that only the final write of a successful apply sets it. -/
theorem C2_counterexample :
    failNode.metadata.generation = some 3
    ∧ ((apply_stellar_node okEnv failNode).1.filterMap Step.writtenStatus).map
        (fun st => (st.phase, st.observed_generation)) = [("Failed", some 3)]
    ∧ validator5Node.metadata.generation = some 2
    ∧ ((apply_stellar_node okEnv validator5Node).1.filterMap Step.writtenStatus).map
        (fun st => (st.phase, st.observed_generation))
        = [("Creating", some 2), ("Running", some 2)] := by
  refine ⟨rfl, ?_, rfl, ?_⟩ <;> rfl

/-- C2, amended: every status write of the apply path — the
validation-failure Failed write and the interim Creating and Suspended
writes included — sets `status.observedGeneration` to the node's
metadata generation; setting it is not reserved to the final write of a
successful apply cycle. -/
theorem C2_observed_generation (env : Env) (node : StellarNode) :
    ((apply_stellar_node env node).1.all fun s =>
      ((s.writtenStatus).map fun st =>
        st.observed_generation == node.metadata.generation).getD true) = true := by
  rw [List.all_eq_true]
  intro s hs
  cases hw : s.writtenStatus with
  | none => simp [hw]
  | some st =>
    have := (apply_steps_status env node s hs st (Option.mem_def.2 hw)).1
    simp [hw, this]

/-- C3: the apply path ensures a StatefulSet exactly for Validator nodes
and a Deployment for Horizon/SorobanRpc nodes; the StatefulSet is built
with replicas 0 when suspended and exactly 1 otherwise regardless of the
declared count, while the Deployment is built with replicas 0 when
suspended and the declared `spec.replicas` otherwise. -/
theorem C3_workload_replicas (env : Env) (node : StellarNode) :
    ((apply_stellar_node env node).1.all fun s =>
      ((s.workloadApplied).map fun w =>
        decide (w = chosenWorkload node)).getD true) = true
    ∧ ((build_statefulset node).spec.map fun sp => sp.replicas)
        = some (some (if node.spec.suspended then 0 else 1))
    ∧ ((build_deployment node).spec.map fun sp => sp.replicas)
        = some (some (if node.spec.suspended then 0 else node.spec.replicas)) := by
  refine ⟨?_, rfl, rfl⟩
  rw [List.all_eq_true]
  intro s hs
  rcases apply_steps_char env node s hs with
    ⟨p, m, r, rfl⟩ | rfl | rfl | rfl | ⟨ht, rfl⟩ | ⟨ht, rfl⟩ | rfl | rfl <;>
    try rfl
  · simp [Step.workloadApplied, chosenWorkload, ht]
  · cases h2 : node.spec.node_type with
    | Validator => exact absurd h2 ht
    | Horizon => simp [Step.workloadApplied, chosenWorkload, h2]
    | SorobanRpc => simp [Step.workloadApplied, chosenWorkload, h2]

/-- C4: during cleanup the storage claim `<node-name>-data` is deleted
exactly when `spec.storage.retentionPolicy` is Delete — with Retain no
delete call for it is issued (the claim is left present) — and in both
cases cleanup completes with `Action::await_change()`, allowing the
finalizer token to be removed. -/
theorem C4_pvc_retention (env : Env) (node : StellarNode) :
    ((cleanup_stellar_node env node).1.filter Step.isPvcDelete)
      = (if node.spec.storage.retention_policy = RetentionPolicy.Delete then
          [Step.pvcDelete node.nsOrDefault (resource_name node "data")]
        else [])
    ∧ (cleanup_stellar_node env node).2 = .ok .awaitChange := by
  rw [cleanup_trace]
  cases h : node.spec.storage.retention_policy <;>
    simp [StellarNodeSpec.should_delete_pvc, h, Step.isPvcDelete]

/-- C5: when the spec fails validation, the apply path issues exactly
one call — the phase=Failed status write carrying the validation
message — so no child-resource mutation is attempted, and it surfaces a
`ValidationError` to the Error Policy (which schedules the 60-second
retry). -/
theorem C5_validation_short_circuit (env : Env) (node : StellarNode)
    (msg : String) (hv : node.spec.validate = .error msg)
    (hp : env.statusPatch (statusFor node "Failed" (some msg) 0) = .ok ()) :
    apply_stellar_node env node =
      ([Step.statusWrite node.nsOrDefault node.nameAny
          (statusFor node "Failed" (some msg) 0)],
       .error (.ValidationError msg))
    ∧ ((apply_stellar_node env node).1.all fun s => !s.isChildMutation) = true
    ∧ error_policy (.ValidationError msg) = .requeue 60 := by
  have h1 : apply_stellar_node env node =
      ([Step.statusWrite node.nsOrDefault node.nameAny
          (statusFor node "Failed" (some msg) 0)],
       .error (.ValidationError msg)) := by
    unfold apply_stellar_node update_status
    rw [hv]
    simp [hp]
  refine ⟨h1, ?_, rfl⟩
  rw [h1]
  rfl

/-- C5, witness: the concrete invalid node (`replicas = -1`) with an
all-success environment. -/
theorem C5_witness :
    apply_stellar_node okEnv failNode =
      ([Step.statusWrite failNode.nsOrDefault failNode.nameAny
          (statusFor failNode "Failed" (some "replicas must be non-negative") 0)],
       .error (.ValidationError "replicas must be non-negative"))
    ∧ ((apply_stellar_node okEnv failNode).1.all fun s => !s.isChildMutation) = true
    ∧ error_policy (.ValidationError "replicas must be non-negative")
        = .requeue 60 :=
  C5_validation_short_circuit okEnv failNode "replicas must be non-negative"
    rfl rfl

/-- C6: cleanup is best-effort — its trace (all four deletion steps, the
storage claim's only under policy Delete) is the same under any two
environments, so no individual deletion failure prevents the later
steps, and the result is always `Action::await_change()` (cleanup
success, allowing finalizer removal). -/
theorem C6_cleanup_best_effort (env env2 : Env) (node : StellarNode) :
    (cleanup_stellar_node env node).2 = .ok .awaitChange
    ∧ (cleanup_stellar_node env node).1 = (cleanup_stellar_node env2 node).1
    ∧ (cleanup_stellar_node env node).1 =
        [Step.svcDelete node.nsOrDefault node.nameAny,
         Step.workloadDelete node.nsOrDefault node.nameAny,
         Step.cmDelete node.nsOrDefault (resource_name node "config")] ++
        (if node.spec.should_delete_pvc then
          [Step.pvcDelete node.nsOrDefault (resource_name node "data")]
        else []) := by
  rw [cleanup_trace env node, cleanup_trace env2 node]
  exact ⟨rfl, rfl, rfl⟩

/-- C7: the Error Policy requeues after a fixed 60-second delay for a
validation failure and after a fixed 15-second delay for any retriable
(transient) failure such as a cluster-API error — fixed constants, no
backoff. -/
theorem C7_error_policy_delays (m : String) (k : KubeErr) (e : Error) :
    error_policy (.ValidationError m) = .requeue 60
    ∧ error_policy (.KubeError k) = .requeue 15
    ∧ error_policy e = .requeue (if e.is_retriable then 15 else 60) :=
  ⟨rfl, rfl, rfl⟩

/-- C8: `ensure_pvc` is get-or-create only: when the claim exists it is
left entirely unchanged (the get is the only call issued — no update or
patch), when the get answers 404 it creates the built claim, and any
other get error is propagated as a `KubeError` failure with no create
attempted. -/
theorem C8_pvc_get_or_create (env : Env) (node : StellarNode) :
    (env.pvcGetRes = .ok () →
      ensure_pvc env node =
        ([Step.pvcGet node.nsOrDefault (resource_name node "data")], .ok ()))
    ∧ (env.pvcGetRes = .error (.api 404) →
      ensure_pvc env node =
        ([Step.pvcGet node.nsOrDefault (resource_name node "data"),
          Step.pvcCreate node.nsOrDefault (build_pvc node)],
         match env.pvcCreateRes with
         | .ok _ => .ok ()
         | .error e2 => .error (.KubeError e2)))
    ∧ (∀ e : KubeErr, env.pvcGetRes = .error e → e ≠ .api 404 →
      ensure_pvc env node =
        ([Step.pvcGet node.nsOrDefault (resource_name node "data")],
         .error (.KubeError e))) := by
  refine ⟨?_, ?_, ?_⟩
  · intro h
    unfold ensure_pvc
    rw [h]
  · intro h
    unfold ensure_pvc
    rw [h]
    simp
  · intro e h hne
    unfold ensure_pvc
    rw [h]
    simp [hne]

/-- C8, witness: the three get outcomes at concrete inputs — existing
claim, absent claim (404) and a 500 get failure. -/
theorem C8_witness :
    ensure_pvc okEnv horizonAsNode =
      ([Step.pvcGet horizonAsNode.nsOrDefault
          (resource_name horizonAsNode "data")], .ok ())
    ∧ ensure_pvc pvcAbsentEnv horizonAsNode =
      ([Step.pvcGet horizonAsNode.nsOrDefault
          (resource_name horizonAsNode "data"),
        Step.pvcCreate horizonAsNode.nsOrDefault (build_pvc horizonAsNode)],
       .ok ())
    ∧ ensure_pvc pvcGetFailEnv horizonAsNode =
      ([Step.pvcGet horizonAsNode.nsOrDefault
          (resource_name horizonAsNode "data")],
       .error (.KubeError (.api 500))) :=
  ⟨(C8_pvc_get_or_create okEnv horizonAsNode).1 rfl,
   (C8_pvc_get_or_create pvcAbsentEnv horizonAsNode).2.1 rfl,
   (C8_pvc_get_or_create pvcGetFailEnv horizonAsNode).2.2 (.api 500) rfl
     (by decide)⟩

/-- C9: every status write sets `status.replicas` to 0 when suspended
and to the declared `spec.replicas` otherwise, independent of node kind;
concretely, the non-suspended Validator declared with 5 replicas reports
`status.replicas = 5` in both its status writes even though its
StatefulSet is built with exactly 1 replica. -/
theorem C9_status_replicas (env : Env) (node : StellarNode) :
    ((apply_stellar_node env node).1.all fun s =>
      ((s.writtenStatus).map fun st =>
        st.replicas ==
          if node.spec.suspended then 0 else node.spec.replicas).getD true)
      = true
    ∧ ((apply_stellar_node okEnv validator5Node).1.filterMap
        Step.writtenStatus).map (fun st => st.replicas) = [5, 5]
    ∧ ((build_statefulset validator5Node).spec.map fun sp => sp.replicas)
        = some (some 1) := by
  refine ⟨?_, rfl, rfl⟩
  rw [List.all_eq_true]
  intro s hs
  cases hw : s.writtenStatus with
  | none => simp [hw]
  | some st =>
    have := (apply_steps_status env node s hs st (Option.mem_def.2 hw)).2
    simp [hw, this]

/-- C10: for a node carrying no namespace, the reconcile dispatch builds
its client against the literal namespace `default`, and every call of
the apply path, the cleanup path and `ensure_hpa` (child ensure/delete,
status update, ready-replica read) targets `default` rather than
failing. -/
theorem C10_default_namespace (env : Env) (ev : FinalizerEvent)
    (node : StellarNode) (h : node.metadata.ns = none) :
    (reconcile env ev node).1 = "default"
    ∧ (((reconcile env ev node).2.1.all fun s => s.ns == "default") = true)
    ∧ (((cleanup_stellar_node env node).1.all fun s => s.ns == "default") = true)
    ∧ (((ensure_hpa env node).1.all fun s => s.ns == "default") = true) := by
  have hns : node.nsOrDefault = "default" := by
    unfold StellarNode.nsOrDefault
    rw [h]
    rfl
  refine ⟨hns, ?_, ?_, ?_⟩
  · rw [List.all_eq_true]
    intro s hs
    cases ev with
    | Apply =>
      have := apply_steps_ns env node s hs
      simp [this, hns]
    | Cleanup =>
      have := cleanup_steps_ns env node s hs
      simp [this, hns]
  · rw [List.all_eq_true]
    intro s hs
    have := cleanup_steps_ns env node s hs
    simp [this, hns]
  · rw [List.all_eq_true]
    intro s hs
    have := ensure_hpa_steps_ns env node s hs
    simp [this, hns]

/-- C10, witness: the namespace-less node under the all-success
environment, on the apply event. -/
theorem C10_witness :
    (reconcile okEnv .Apply noNsNode).1 = "default"
    ∧ (((reconcile okEnv .Apply noNsNode).2.1.all fun s =>
        s.ns == "default") = true)
    ∧ (((cleanup_stellar_node okEnv noNsNode).1.all fun s =>
        s.ns == "default") = true)
    ∧ (((ensure_hpa okEnv noNsNode).1.all fun s => s.ns == "default") = true) :=
  C10_default_namespace okEnv .Apply noNsNode rfl

end StellarK8s
